import Mathlib

unseal Rat.add Rat.mul Rat.inv Rat.sub Rat.ofScientific

set_option maxRecDepth 100000

/-!
Verification of the gold-digger trading bot core against its specification.

All prices, confidences and monetary amounts are modelled as exact rationals
(`Rat`); the Python source computes with binary floats, and every concrete
input used below is chosen far from any float-representation boundary.
Python rounding via `round(x, n)` uses round-half-to-even, modelled by `rnearestEven`.
-/

/-- Round a rational to the nearest integer, ties going to the even integer
(the semantics of the Python builtin `round`). -/
def rnearestEven (x : ℚ) : ℤ :=
  let f : ℤ := x.floor
  let frac : ℚ := x - f
  if frac < 1/2 then f
  else if frac > 1/2 then f + 1
  else if 2 ∣ f then f else f + 1

/-- Python `round(x, 2)`. -/
def round2 (x : ℚ) : ℚ := (rnearestEven (x * 100) : ℚ) / 100

/-- Python `round(x, 1)`. -/
def round1 (x : ℚ) : ℚ := (rnearestEven (x * 10) : ℚ) / 10

/-- Python `int(x)`: truncation toward zero. -/
def truncToInt (x : ℚ) : ℤ := if 0 ≤ x then x.floor else -(-x).floor

/-- Lemma: `Rat.floor` agrees with the `FloorRing` floor (the instance is built from
it). -/
theorem ratFloor_eq (x : ℚ) : x.floor = ⌊x⌋ := rfl

theorem rnearestEven_ge (x : ℚ) : x - 1/2 ≤ (rnearestEven x : ℚ) := by
  unfold rnearestEven
  dsimp only
  rw [ratFloor_eq]
  have hf := Int.sub_one_lt_floor x
  have hf' := Int.floor_le x
  split
  · linarith
  · split
    · push_cast; linarith
    · split
      · linarith
      · push_cast; linarith

theorem rnearestEven_le (x : ℚ) : (rnearestEven x : ℚ) ≤ x + 1/2 := by
  unfold rnearestEven
  dsimp only
  rw [ratFloor_eq]
  have hf := Int.sub_one_lt_floor x
  have hf' := Int.floor_le x
  split
  · linarith
  · rename_i h1
    push_neg at h1
    split
    · rename_i h2
      push_cast
      linarith
    · rename_i h2
      push_neg at h2
      have hx : x - (⌊x⌋ : ℚ) = 1/2 := le_antisymm h2 h1
      split
      · linarith
      · push_cast; linarith

/-! ## Shared position-sizing utility (`src/core/position_sizing.py`)

`GoldPositionSizer` constants: `contract_size = 100` ounces per lot,
`min_lot_size = 0.01`, `max_lot_size = 50.0`, `lot_step = 0.01`,
`pip_value_per_lot = 10.0`. -/

/-- Result record of `GoldPositionSizer.calculate_position_size`. -/
structure PositionSize where
  lot_size : ℚ
  ounces : ℚ
  risk_amount : ℚ
  pip_value : ℚ
  stop_loss_distance : ℚ
  position_value : ℚ
  deriving Repr, DecidableEq

/-- Embeds `GoldPositionSizer.calculate_position_size`.  `riskPercentage` is in
percent units (1.0 means 1 %), exactly as in the source, which computes
`risk_amount = account_balance * (risk_percentage / 100)`.  A zero stop
distance raises `ZeroDivisionError` in the source, caught by the handler
that returns the minimum-lot fallback; that path is the `if` branch. -/
def goldCalculatePositionSize (balance riskPercentage entry stopLossPrice : ℚ)
    (maxRiskAmount : Option ℚ) : PositionSize :=
  let riskAmount0 := balance * (riskPercentage / 100)
  -- `if max_risk_amount and risk_amount > max_risk_amount`: None and 0 are falsy
  let riskAmount :=
    match maxRiskAmount with
    | some m => if m ≠ 0 ∧ riskAmount0 > m then m else riskAmount0
    | none => riskAmount0
  let stopDistUsd := |entry - stopLossPrice|
  if stopDistUsd = 0 then
    { lot_size := 1/100, ounces := 1, risk_amount := 0, pip_value := 1,
      stop_loss_distance := 0, position_value := 0 }
  else
    let ounces := riskAmount / stopDistUsd
    let lot0 := ounces / 100
    let lot1 := (rnearestEven (lot0 / (1/100)) : ℚ) * (1/100)
    let lot := max (1/100) (min lot1 50)
    { lot_size := lot
      ounces := lot * 100
      risk_amount := lot * 100 * stopDistUsd
      pip_value := lot * 10
      stop_loss_distance := stopDistUsd * 10
      position_value := lot * 100 * entry }

/-! ## RiskManager (`src/core/risk_manager.py`) -/

/-- The mutable state of a `RiskManager` instance: configured limits plus the
daily risk counters. Defaults are the constructor values with no environment
overrides. -/
structure RiskState where
  max_risk_per_trade : ℚ := 1/100
  max_daily_loss : ℚ := 500
  max_drawdown : ℚ := 1/10
  max_trades_per_day : ℕ := 4
  daily_pnl : ℚ := 0
  trade_count_today : ℕ := 0
  deriving Repr, DecidableEq

/-- Account info dictionary; missing keys fall back to the source defaults
(`balance` 100000, `equity` defaulting to balance). -/
structure Account where
  balance : Option ℚ := none
  equity : Option ℚ := none
  deriving Repr, DecidableEq

/-- Result record of `RiskManager.calculate_position_size`. -/
structure RMPositionInfo where
  lot_size : ℚ
  risk_amount : ℚ
  pip_value : ℚ
  pips_at_risk : ℚ
  risk_percent : ℚ
  deriving Repr, DecidableEq

/-- The all-zero fallback `RiskManager._get_zero_position`. -/
def rmZeroPosition : RMPositionInfo :=
  { lot_size := 0, risk_amount := 0, pip_value := 0, pips_at_risk := 0, risk_percent := 0 }

/-- Embeds `RiskManager.calculate_position_size`. `riskPercentage` here is a
fraction (0.01 = 1 %), as the caller passes `max_risk_per_trade`; per the
source `risk_percentage or self.max_risk_per_trade`, a `None` or zero
argument falls back to the configured value. A zero balance raises
`ZeroDivisionError` when computing the final risk percentage, so the error
handler returns the zero position in that case. -/
def rmCalculatePositionSize (st : RiskState) (balance entry stopLoss : ℚ)
    (riskPercentage : Option ℚ) : RMPositionInfo :=
  let riskPct :=
    match riskPercentage with
    | some p => if p = 0 then st.max_risk_per_trade else p
    | none => st.max_risk_per_trade
  let riskAmount := balance * riskPct
  let slDistance := |entry - stopLoss|
  if slDistance = 0 then rmZeroPosition
  else if balance = 0 then rmZeroPosition
  else
    let pipsAtRisk := slDistance / (1/100)
    let requiredLots := riskAmount / (pipsAtRisk * 1)
    let lot := max (1/100) (min 1 requiredLots)
    let actualPipValue := lot * 10
    let actualRisk := pipsAtRisk * (actualPipValue / 10)
    { lot_size := round2 lot
      risk_amount := round2 actualRisk
      pip_value := round2 (actualPipValue / 10)
      pips_at_risk := round1 pipsAtRisk
      risk_percent := round2 (actualRisk / balance * 100) }

/-- The rejection / approval reasons produced by
`RiskManager.validate_trade_risk`. The source builds f-strings that embed the
offending numeric value; the constructor identifies which message was built. -/
inductive RiskReason where
  | dailyLossLimit
  | maxDrawdownExceeded
  | dailyTradeLimit
  | missingComponents
  | invalidStopLoss
  | lowRiskReward
  | zeroLotSize
  | riskTooHigh
  | allCriteriaMet
  | validationError
  deriving Repr, DecidableEq

/-- Result record of `RiskManager.validate_trade_risk`. -/
structure RiskValidation where
  approved : Bool
  reasons : List RiskReason
  risk_score : ℤ
  adjusted_lot_size : ℚ
  deriving Repr, DecidableEq

/-- A rejected validation carrying one reason. -/
def riskReject (r : RiskReason) : RiskValidation :=
  { approved := false, reasons := [r], risk_score := 0, adjusted_lot_size := 0 }

/-- Fields of a trade-signal dictionary read by the risk manager; `none`
models a missing key, read through `.get` with the defaults of the source. -/
structure SignalFields where
  entry_price : Option ℚ := none
  stop_loss : Option ℚ := none
  take_profit : Option ℚ := none
  rrVal : Option ℚ := none
  setup_quality : Option ℤ := none
  confidence : Option ℚ := none
  deriving Repr, DecidableEq

/-- Reads the balance key, defaulting to 100000. -/
def acctBalance (acct : Account) : ℚ := acct.balance.getD 100000

/-- Reads the equity key, defaulting to the balance. -/
def acctEquity (acct : Account) : ℚ := acct.equity.getD (acctBalance acct)

/-- Reads the entry price, defaulting to 0. -/
def sigEntry (sig : SignalFields) : ℚ := sig.entry_price.getD 0

/-- Reads the stop loss, defaulting to 0. -/
def sigStop (sig : SignalFields) : ℚ := sig.stop_loss.getD 0

/-- Reads the take profit, defaulting to 0. -/
def sigTP (sig : SignalFields) : ℚ := sig.take_profit.getD 0

/-- Embeds `RiskManager._calculate_risk_score`. -/
def rmCalculateRiskScore (sig : SignalFields) (pos : RMPositionInfo)
    (acct : Account) : ℤ :=
  let score : ℤ := 5
  let rr := sig.rrVal.getD 1
  let score := if rr ≥ 3 then score + 2 else if rr ≥ 2 then score + 1 else score
  let sq := sig.setup_quality.getD 5
  let score := if sq ≥ 8 then score + 2 else if sq ≥ 6 then score + 1 else score
  let conf := sig.confidence.getD (1/2)
  let score := if conf ≥ 4/5 then score + 1 else score
  let riskPct := pos.risk_percent
  let score := if riskPct ≤ 1/2 then score + 1 else if riskPct ≥ 2 then score - 1 else score
  let balance := acct.balance.getD 100000
  let equity := acct.equity.getD balance
  let eqRat := equity / balance
  let score := if eqRat ≥ 98/100 then score + 1 else if eqRat ≤ 9/10 then score - 2 else score
  max 1 (min 10 score)

/-- Embeds `RiskManager.validate_trade_risk`, statement by statement. A zero account
balance raises `ZeroDivisionError` at the drawdown computation; the handler
then returns the generic error rejection, modelled by the explicit
`balance = 0` branch. -/
def validateTradeRisk (st : RiskState) (sig : SignalFields) (acct : Account) :
    RiskValidation :=
  let balance := acctBalance acct
  let equity := acctEquity acct
  if st.daily_pnl ≤ -st.max_daily_loss then riskReject .dailyLossLimit
  else if balance = 0 then riskReject .validationError
  else if (balance - equity) / balance ≥ st.max_drawdown then riskReject .maxDrawdownExceeded
  else if st.trade_count_today ≥ st.max_trades_per_day then riskReject .dailyTradeLimit
  else
    let entry := sigEntry sig
    let sl := sigStop sig
    let tp := sigTP sig
    -- `if not all([entry_price, stop_loss, take_profit])`: 0.0 is falsy
    if entry = 0 ∨ sl = 0 ∨ tp = 0 then riskReject .missingComponents
    else
      let risk := |entry - sl|
      let reward := |tp - entry|
      if risk = 0 then riskReject .invalidStopLoss
      else
        let rr := reward / risk
        if rr < 3/2 then riskReject .lowRiskReward
        else
          let pos := rmCalculatePositionSize st balance entry sl none
          if pos.lot_size = 0 then riskReject .zeroLotSize
          else if pos.risk_amount > balance * st.max_risk_per_trade then riskReject .riskTooHigh
          else
            { approved := true
              reasons := [.allCriteriaMet]
              risk_score := rmCalculateRiskScore sig pos acct
              adjusted_lot_size := pos.lot_size }

/-- Embeds `validate_trade_risk` as a state-threading operation: the method performs
no assignment to any `self` attribute, so the state component is returned
untouched. -/
def validateTradeRiskRun (st : RiskState) (sig : SignalFields) (acct : Account) :
    RiskState × RiskValidation :=
  (st, validateTradeRisk st sig acct)

/-- Embeds `RiskManager.update_daily_pnl`: adds the realized P&L change to
`daily_pnl` (the warning branch only logs). -/
def updateDailyPnlRun (st : RiskState) (pnlChange : ℚ) : RiskState :=
  { st with daily_pnl := st.daily_pnl + pnlChange }

/-- Embeds `RiskManager.increment_trade_count`. -/
def incrementTradeCountRun (st : RiskState) : RiskState :=
  { st with trade_count_today := st.trade_count_today + 1 }

/-- Embeds `RiskManager.reset_daily_counters`. -/
def resetDailyCountersRun (st : RiskState) : RiskState :=
  { st with daily_pnl := 0, trade_count_today := 0 }

/-! ## Signal values and the live trading engine
(`src/core/live_trading_engine.py`) -/

/-- Direction of a trade signal. -/
inductive Direction where
  | BUY
  | SELL
  | HOLD
  deriving Repr, DecidableEq

/-- A trade-signal dictionary as built by `TradingEngine.generate_trade_signal`
and then mutated by the AI-validation step of the live engine. Optional fields model
keys absent from the HOLD dictionaries. Reasons are the literal strings from
the source (dynamic error messages are represented by their fixed prefix). -/
structure TradeSignal where
  signal : Direction
  confidence : ℚ
  reasons : List String
  entry_price : Option ℚ := none
  stop_loss : Option ℚ := none
  take_profit : Option ℚ := none
  rrVal : Option ℚ := none
  lot_size : Option ℚ := none
  risk_amount : Option ℚ := none
  setup_quality : Option ℤ := none
  ai_validated : Option Bool := none
  ai_confidence : Option ℚ := none
  deriving Repr, DecidableEq

/-- A parsed AI reply as consumed by `_analyze_and_trade` (a dictionary with
`trade_decision`, `confidence_score` and `reasoning`). -/
structure AIDecision where
  trade_decision : Direction
  confidence_score : ℚ
  deriving Repr, DecidableEq

/-- The AI-validation block of `LiveTradingEngine._analyze_and_trade`
(lines 259-279): boost confidence by 0.2 (capped at 1.0) when the AI decision
is not HOLD; otherwise cut it by 0.3 (floored at 0.0) and demote the signal to
HOLD with reason "AI validation failed" when the cut confidence drops below
0.3. -/
def applyAIValidation (s : TradeSignal) (ai : AIDecision) : TradeSignal :=
  if ai.trade_decision ≠ .HOLD then
    { s with ai_validated := some true,
             ai_confidence := some ai.confidence_score,
             confidence := min 1 (s.confidence + 2/10) }
  else
    let c := max 0 (s.confidence - 3/10)
    let s' := { s with ai_validated := some false,
                       ai_confidence := some ai.confidence_score,
                       confidence := c }
    if c < 3/10 then
      { s' with signal := .HOLD, reasons := s.reasons ++ ["AI validation failed"] }
    else s'

/-- The pre-execution gate of `_analyze_and_trade` (line 303): the signal is
handed to `RiskManager.validate_trade_risk` only when it is non-HOLD AND its
confidence is at least 0.75. -/
def proceedsToRiskGate (s : TradeSignal) : Bool :=
  s.signal ≠ .HOLD ∧ s.confidence ≥ 3/4

/-- Status of a closed live position (the `reason` string passed to
`_close_position`). -/
inductive CloseReason where
  | STOP_LOSS
  | TAKE_PROFIT
  deriving Repr, DecidableEq

/-- A `LivePosition` dataclass instance. -/
structure LivePosition where
  ticket : ℕ
  direction : Direction
  volume : ℚ
  entry_price : ℚ
  stop_loss : ℚ
  take_profit : ℚ
  current_price : ℚ := 0
  unrealized_pnl : ℚ := 0
  deriving Repr, DecidableEq

/-- The per-position body of `LiveTradingEngine._update_open_positions`:
update the mark price and unrealized P&L from the currently observed last
price, then close on `current_price ≤ stop_loss` (BUY) respectively
`current_price ≥ stop_loss` (SELL), else on the take-profit crossing.
The exit price passed to `_close_position` is the observed `current_price`
itself, not the stop/target level. -/
def updateOpenPosition (pos : LivePosition) (currentPrice : ℚ) :
    LivePosition × Option (ℚ × CloseReason) :=
  match pos.direction with
  | .BUY =>
    let pos' := { pos with current_price := currentPrice,
                           unrealized_pnl := (currentPrice - pos.entry_price) * pos.volume * 100 }
    if currentPrice ≤ pos.stop_loss then (pos', some (currentPrice, .STOP_LOSS))
    else if currentPrice ≥ pos.take_profit then (pos', some (currentPrice, .TAKE_PROFIT))
    else (pos', none)
  | _ =>
    let pos' := { pos with current_price := currentPrice,
                           unrealized_pnl := (pos.entry_price - currentPrice) * pos.volume * 100 }
    if currentPrice ≥ pos.stop_loss then (pos', some (currentPrice, .STOP_LOSS))
    else if currentPrice ≤ pos.take_profit then (pos', some (currentPrice, .TAKE_PROFIT))
    else (pos', none)

/-- The P&L recorded by `LiveTradingEngine._close_position`:
`(exit − entry) · volume · 100` for BUY and `(entry − exit) · volume · 100`
for SELL (volume is in lots, so `volume · 100` is the ounces). -/
def closePositionPnl (pos : LivePosition) (exitPrice : ℚ) : ℚ :=
  match pos.direction with
  | .BUY => (exitPrice - pos.entry_price) * pos.volume * 100
  | _ => (pos.entry_price - exitPrice) * pos.volume * 100

/-! ## SMC analyzer (`src/core/indicators.py`)

Bars are OHLCV candles; per-bar timestamps are modelled by the index of the
bar in the series (the source uses the datetime index, which is strictly
increasing, so index order and timestamp order coincide). -/

/-- One OHLCV candle (`openP` is the `Open` column). -/
structure Bar where
  openP : ℚ
  high : ℚ
  low : ℚ
  close : ℚ
  volume : ℚ
  deriving Repr, DecidableEq

/-- Bar at index `i` (only evaluated in range). -/
def bat (bars : List Bar) (i : ℕ) : Bar := bars.getD i ⟨0, 0, 0, 0, 0⟩

/-- Maximum of a list (pandas `.max()`), 0 on the empty list (never taken on
the paths exercised). -/
def listMaxD (xs : List ℚ) : ℚ :=
  match xs with
  | [] => 0
  | x :: r => r.foldl max x

/-- Minimum of a list (pandas `.min()`). -/
def listMinD (xs : List ℚ) : ℚ :=
  match xs with
  | [] => 0
  | x :: r => r.foldl min x

/-- Sum of a list of rationals. -/
def listSum (xs : List ℚ) : ℚ := xs.foldl (· + ·) 0

/-- True range at index `i` (`_calculate_atr`): at index 0 the shifted close
is NaN and the row-wise max skips it, leaving `high − low`. -/
def trueRangeAt (bars : List Bar) (i : ℕ) : ℚ :=
  let b := bat bars i
  if i = 0 then b.high - b.low
  else
    let pc := (bat bars (i - 1)).close
    max (b.high - b.low) (max |b.high - pc| |b.low - pc|)

/-- ATR column value at index `i`: the 14-bar rolling mean of true range,
which is NaN (and hence `fillna`-replaced by the true range itself) for
indices below 13. -/
def atrAt (bars : List Bar) (i : ℕ) : ℚ :=
  if 13 ≤ i then
    listSum ((List.range 14).map (fun k => trueRangeAt bars (i - 13 + k))) / 14
  else trueRangeAt bars i

/-- Close of the last bar. -/
def lastClose (bars : List Bar) : ℚ := (bat bars (bars.length - 1)).close

/-- Final value of `ewm(span, adjust=False).mean()` over the closes. -/
def emaLastOf (closes : List ℚ) (span : ℕ) : ℚ :=
  let α : ℚ := 2 / (span + 1)
  match closes with
  | [] => 0
  | c :: rest => rest.foldl (fun e x => α * x + (1 - α) * e) c

/-- Final value of the EMA column for a given span: the source only computes
the EMA when the series has at least `span` rows, otherwise the column is a
copy of `Close`. -/
def emaColLast (bars : List Bar) (span : ℕ) : ℚ :=
  if span ≤ bars.length then emaLastOf (bars.map (·.close)) span else lastClose bars

/-- Final value of the RSI-14 column (`_calculate_rsi`). The rolling means
are NaN until 14 deltas are available, and `fillna(50)` maps those to 50.
With zero average loss the float quotient is `inf` (RSI 100) unless the
average gain is also zero (`NaN`, hence 50). -/
def rsiLast (bars : List Bar) : ℚ :=
  let n := bars.length
  if n < 15 then 50
  else
    let ds := (List.range 14).map
      (fun k => (bat bars (n - 14 + k)).close - (bat bars (n - 15 + k)).close)
    let g := listSum (ds.map (fun d => max d 0)) / 14
    let l := listSum (ds.map (fun d => max (-d) 0)) / 14
    if l = 0 then (if g = 0 then 50 else 100)
    else 100 - 100 / (1 + g / l)

/-- Final value of the VWAP column (`_calculate_vwap`): cumulative
price·volume over cumulative volume, where a zero cumulative volume is
`replace`d by 1. -/
def vwapLast (bars : List Bar) : ℚ :=
  let pv := listSum (bars.map (fun b => (b.high + b.low + b.close) / 3 * b.volume))
  let v := listSum (bars.map (·.volume))
  pv / (if v = 0 then 1 else v)

/-- Session liquidity levels (`get_session_levels`). -/
structure SessionLevels where
  session_high : ℚ
  session_low : ℚ
  previous_day_high : ℚ
  previous_day_low : ℚ
  weekly_high : ℚ
  weekly_low : ℚ
  deriving Repr, DecidableEq

/-- Embeds `get_session_levels`: window statistics over the last 50 bars, the
previous-day levels over the last 24 of those when available. -/
def getSessionLevels (bars : List Bar) : SessionLevels :=
  let recent := bars.drop (bars.length - 50)
  let highs := recent.map (·.high)
  let lows := recent.map (·.low)
  let sh := listMaxD highs
  let sl := listMinD lows
  let pdh := if 24 ≤ recent.length then listMaxD (highs.drop (highs.length - 24)) else sh
  let pdl := if 24 ≤ recent.length then listMinD (lows.drop (lows.length - 24)) else sl
  { session_high := sh, session_low := sl, previous_day_high := pdh,
    previous_day_low := pdl, weekly_high := sh, weekly_low := sl }

/-- Order-block kind. -/
inductive OBKind where
  | bullish
  | bearish
  deriving Repr, DecidableEq

/-- Order-block status (every detected block is emitted `fresh`). -/
inductive OBStatus where
  | fresh
  | mitigated
  deriving Repr, DecidableEq

/-- A detected order block; `timestamp` is the index of the forming bar. -/
structure OrderBlock where
  kind : OBKind
  top : ℚ
  bottom : ℚ
  timestamp : ℕ
  strength : ℤ
  status : OBStatus
  deriving Repr, DecidableEq

/-- Stable insertion into a list sorted descending by `(timestamp, strength)`
(the key order of `sorted(..., reverse=True)`). -/
def obInsertDesc (x : OrderBlock) : List OrderBlock → List OrderBlock
  | [] => [x]
  | y :: ys =>
    if y.timestamp < x.timestamp ∨ (y.timestamp = x.timestamp ∧ y.strength < x.strength)
    then x :: y :: ys
    else y :: obInsertDesc x ys

/-- Stable sort descending by `(timestamp, strength)`. -/
def obSortDesc (l : List OrderBlock) : List OrderBlock :=
  l.foldl (fun acc x => obInsertDesc x acc) []

/-- Embeds `detect_order_blocks`: for bars in `range(10, len-5)`, a candle whose
range exceeds 1.5·ATR is a bullish block when it closes up, bearish when it
closes down; keep the five most recent. Strength is
`min(10, int(range/ATR · 2))` (Python `int` truncation). -/
def detectOrderBlocks (bars : List Bar) : List OrderBlock :=
  if bars.length < 20 then []
  else
    let cands := (List.range bars.length).filterMap (fun i =>
      if 10 ≤ i ∧ i + 5 < bars.length then
        let b := bat bars i
        let atr := atrAt bars i
        if b.close > b.openP ∧ b.high - b.low > atr * (3/2) then
          some { kind := .bullish, top := b.high, bottom := b.low, timestamp := i,
                 strength := min 10 (truncToInt ((b.high - b.low) / atr * 2)),
                 status := .fresh }
        else if b.close < b.openP ∧ b.high - b.low > atr * (3/2) then
          some { kind := .bearish, top := b.high, bottom := b.low, timestamp := i,
                 strength := min 10 (truncToInt ((b.high - b.low) / atr * 2)),
                 status := .fresh }
        else none
      else none)
    (obSortDesc cands).take 5

/-- BOS direction values. -/
inductive BOSDir where
  | BULLISH
  | BEARISH
  | NEUTRAL
  deriving Repr, DecidableEq

/-- Result dictionary of `detect_break_of_structure`. -/
structure BOSAnalysis where
  bos_detected : Bool
  direction : BOSDir
  strength : ℤ
  break_price : ℚ
  deriving Repr, DecidableEq

/-- Embeds `detect_break_of_structure` over the last 20 bars: the final rolling
5-bar high (max of bars 15..19 of the window) against the `-10:-5` rolling
maxima, whose windows jointly cover bars 6..14; symmetrically for lows. -/
def detectBreakOfStructure (bars : List Bar) : BOSAnalysis :=
  if bars.length < 20 then ⟨false, .NEUTRAL, 0, 0⟩
  else
    let recent := bars.drop (bars.length - 20)
    let highs := recent.map (·.high)
    let lows := recent.map (·.low)
    let lastHighMax := listMaxD (highs.drop 15)
    let prevHighMax := listMaxD ((highs.drop 6).take 9)
    if lastHighMax > prevHighMax then ⟨true, .BULLISH, 7, lastHighMax⟩
    else
      let lastLowMin := listMinD (lows.drop 15)
      let prevLowMin := listMinD ((lows.drop 6).take 9)
      if lastLowMin < prevLowMin then ⟨true, .BEARISH, 7, lastLowMin⟩
      else ⟨false, .NEUTRAL, 0, 0⟩

/-- Liquidity-grab kind. -/
inductive GrabKind where
  | upward
  | downward
  deriving Repr, DecidableEq

/-- A detected liquidity grab. -/
structure LiquidityGrab where
  kind : GrabKind
  price : ℚ
  timestamp : ℕ
  strength : ℤ
  deriving Repr, DecidableEq

/-- Embeds `detect_liquidity_grabs`: spikes 0.2 % beyond the prior extreme
that the next bar reverses; keep the last three. -/
def detectLiquidityGrabs (bars : List Bar) : List LiquidityGrab :=
  if bars.length < 10 then []
  else
    let allGrabs := (List.range bars.length).filterMap (fun i =>
      if 5 ≤ i ∧ i + 2 < bars.length then
        let cur := bat bars i
        let prev := bat bars (i - 1)
        let nxt := bat bars (i + 1)
        if cur.high > prev.high * (1002/1000) ∧ nxt.close < cur.openP then
          some ⟨.upward, cur.high, i, 6⟩
        else if cur.low < prev.low * (998/1000) ∧ nxt.close > cur.openP then
          some ⟨.downward, cur.low, i, 6⟩
        else none
      else none)
    allGrabs.drop (allGrabs.length - 3)

/-- Trend classification (`analyze_market_structure`); `UNKNOWN` appears only
in the empty-data error dictionary. -/
inductive Trend where
  | BULLISH
  | BEARISH
  | NEUTRAL
  | UNKNOWN
  deriving Repr, DecidableEq

/-- The indicator sub-dictionary of a market analysis. -/
structure Indicators where
  vwap : ℚ
  ema21 : ℚ
  ema50 : ℚ
  ema200 : ℚ
  rsi : ℚ
  atr : ℚ
  deriving Repr, DecidableEq

/-- A market-structure analysis dictionary. `none` for `session_levels` or
`indicators` models the empty dictionaries of the error fallbacks. -/
structure MarketAnalysis where
  current_price : ℚ
  trend : Trend
  session_levels : Option SessionLevels
  order_blocks : List OrderBlock
  bos_analysis : BOSAnalysis
  liquidity_grabs : List LiquidityGrab
  indicators : Option Indicators
  setup_quality : ℤ := 0
  deriving Repr, DecidableEq

/-- EMA 50/200 confluence trend rule. -/
def computeTrend (bars : List Bar) : Trend :=
  let cp := lastClose bars
  let e50 := emaColLast bars 50
  let e200 := emaColLast bars 200
  if cp > e50 ∧ e50 > e200 then .BULLISH
  else if cp < e50 ∧ e50 < e200 then .BEARISH
  else .NEUTRAL

/-- Embeds `SMCIndicators.analyze_market_structure` on a non-empty bar series
(the caller has already rejected empty data). `setup_quality` is not yet part
of the analysis at this point; it is attached by `analyze_market_setup`. -/
def analyzeMarketStructure (bars : List Bar) : MarketAnalysis :=
  { current_price := lastClose bars
    trend := computeTrend bars
    session_levels := some (getSessionLevels bars)
    order_blocks := detectOrderBlocks bars
    bos_analysis := detectBreakOfStructure bars
    liquidity_grabs := detectLiquidityGrabs bars
    indicators := some
      { vwap := vwapLast bars
        ema21 := emaColLast bars 21
        ema50 := emaColLast bars 50
        ema200 := emaColLast bars 200
        rsi := rsiLast bars
        atr := atrAt bars (bars.length - 1) }
    setup_quality := 0 }

/-! ## TradingEngine (`src/core/trading_engine.py`) -/

/-- Embeds `TradingEngine._calculate_setup_quality`, statement by statement:
sequential score adjustments from base 5, clamped into `[1, 10]` at the end.
The RSI is read through `.get` with default 50. -/
def calculateSetupQuality (a : MarketAnalysis) : ℤ :=
  let score : ℤ := 5
  let score := if a.trend = .BULLISH ∨ a.trend = .BEARISH then score + 2 else score
  let score := if 0 < a.order_blocks.length then score + 1 else score
  let score := if a.bos_analysis.bos_detected then score + 2 else score
  let score := if 0 < a.liquidity_grabs.length then score + 1 else score
  let rsi := (a.indicators.map Indicators.rsi).getD 50
  let score :=
    if 30 ≤ rsi ∧ rsi ≤ 70 then score + 1
    else if rsi < 20 ∨ rsi > 80 then score - 1
    else score
  max 1 (min 10 score)

/-- Embeds `TradingEngine.analyze_market_setup` on non-empty data: run the SMC
analysis and attach the setup-quality score. -/
def analyzeMarketSetup (bars : List Bar) : MarketAnalysis :=
  let a := analyzeMarketStructure bars
  { a with setup_quality := calculateSetupQuality a }

/-- Result of `TradingEngine.validate_smc_strategy_setup`. -/
structure SMCValidation where
  valid : Bool
  reasons : List String
  trade_direction : Direction
  confidence : ℚ
  selected_order_block : Option OrderBlock
  deriving Repr, DecidableEq

/-- A failed validation. -/
def smcFail (r : String) : SMCValidation :=
  { valid := false, reasons := [r], trade_direction := .HOLD, confidence := 0,
    selected_order_block := none }

/-- Embeds `TradingEngine.validate_smc_strategy_setup`: the four SMC gates in order,
then direction, confidence and the selected order block. `recent_grab` is
`any(...)` over the last two grab dictionaries, which (dictionaries being
truthy) holds exactly when the grab list is non-empty. -/
def validateSMCStrategySetup (a : MarketAnalysis) : SMCValidation :=
  if a.session_levels.isNone then
    smcFail "Step 1 FAILED: No session liquidity levels identified"
  else if a.liquidity_grabs.isEmpty then
    smcFail "Step 2 FAILED: No liquidity grab detected"
  else if (a.liquidity_grabs.drop (a.liquidity_grabs.length - 2)).isEmpty then
    smcFail "Step 2 FAILED: No recent liquidity grab"
  else if ¬ a.bos_analysis.bos_detected then
    smcFail "Step 3 FAILED: No Break of Structure confirmation"
  else if a.bos_analysis.direction = .NEUTRAL then
    smcFail "Step 3 FAILED: BOS direction unclear"
  else if a.order_blocks.isEmpty then
    smcFail "Step 4 FAILED: No Order Blocks for retest entry"
  else
    let validObs := a.order_blocks.filter (fun ob =>
      ob.status = .fresh ∧
      ((a.bos_analysis.direction = .BULLISH ∧ ob.kind = .bullish) ∨
       (a.bos_analysis.direction = .BEARISH ∧ ob.kind = .bearish)))
    match validObs with
    | [] => smcFail "Step 4 FAILED: No valid Order Blocks aligned with BOS direction"
    | ob :: _ =>
      let bonus : ℚ := ((a.setup_quality - 5 : ℤ) : ℚ) * (5/100)
      let bonus := if 1 < a.liquidity_grabs.length then bonus + 1/10 else bonus
      let bonus := if 7 ≤ a.bos_analysis.strength then bonus + 1/10 else bonus
      { valid := true
        reasons := ["All 4 SMC strategy steps completed successfully"]
        trade_direction := if a.bos_analysis.direction = .BULLISH then .BUY else .SELL
        confidence := min (95/100) (6/10 + bonus)
        selected_order_block := some ob }

/-- Result of `TradingEngine.calculate_position_size` (the zero-distance
branch returns a dictionary without the pips key; the field is 0 there and
is not read by the caller). -/
structure EnginePositionInfo where
  lot_size : ℚ
  risk_amount : ℚ
  pip_value : ℚ
  slDistancePips : ℚ
  deriving Repr, DecidableEq

/-- Embeds `TradingEngine.calculate_position_size`: risk capped at the engine
constant `max_risk_per_trade = 0.02`, pip value $1, lot clamped into `[0.01, 1.0]`
and rounded to two decimals; zero stop distance yields a zero lot. -/
def engineCalculatePositionSize (balance riskPercentage entry stopLoss : ℚ) :
    EnginePositionInfo :=
  let riskAmount := balance * min riskPercentage (2/100)
  let slPips := |entry - stopLoss| * 100
  if slPips = 0 then ⟨0, 0, 0, 0⟩
  else
    let lot := riskAmount / (slPips * 1)
    let lot := max (1/100) (min 1 lot)
    ⟨round2 lot, riskAmount, 1, slPips⟩

/-- The raw (pre-rounding) BUY entry, stop-loss and take-profit levels
computed by `generate_trade_signal` from the validated analysis:
entry at the top of the selected order block, stop 5 pips below its bottom,
take profit at VWAP when VWAP is a closer above-entry target than the
1:2 level. -/
def engineBuyLevels (a : MarketAnalysis) (v : SMCValidation) : ℚ × ℚ × ℚ :=
  let cp := a.current_price
  let sel := v.selected_order_block
  let entry := (sel.map OrderBlock.top).getD cp
  let stop := (sel.map OrderBlock.bottom).getD (cp - 1/2) - 5 * (1/100)
  let riskDist := |entry - stop|
  let vwap := (a.indicators.map Indicators.vwap).getD (cp + riskDist * 2)
  let tpRat := entry + riskDist * 2
  let tp := if vwap > entry then min vwap tpRat else tpRat
  (entry, stop, tp)

/-- The tail of `generate_trade_signal` from the analysis onward (the source
is a straight-line sequence: analyze, validate, levels, sizing, assemble).
The SELL branch of the source reads the local `pip_value`, which is assigned
only inside the BUY branch; Python raises `UnboundLocalError` there, the
function-level handler catches it and returns the error HOLD signal, so no
SELL signal can ever be emitted. -/
def generateFromAnalysis (a : MarketAnalysis) (acct : Account) : TradeSignal :=
  let v := validateSMCStrategySetup a
  if ¬ v.valid then
    { signal := .HOLD, confidence := 0, reasons := v.reasons }
  else if v.trade_direction = .BUY then
    let lv := engineBuyLevels a v
    let entry := lv.1
    let stop := lv.2.1
    let tp := lv.2.2
    let balance := acct.balance.getD 100000
    let pos := engineCalculatePositionSize balance (1/100) entry stop
    let risk := |entry - stop|
    let reward := |tp - entry|
    let rr := if 0 < risk then reward / risk else 0
    { signal := v.trade_direction
      confidence := v.confidence
      reasons := v.reasons
      entry_price := some (round2 entry)
      stop_loss := some (round2 stop)
      take_profit := some (round2 tp)
      rrVal := some (round2 rr)
      lot_size := some pos.lot_size
      risk_amount := some pos.risk_amount
      setup_quality := some a.setup_quality }
  else
    { signal := .HOLD, confidence := 0,
      reasons := ["Signal generation error: local variable referenced before assignment"] }

/-- The raw market-data argument of `generate_trade_signal`, one constructor
per branch of `_ensure_dataframe`: an existing DataFrame, a dict of column
lists containing the Close/High/Low keys (Open and Volume optional), a dict
missing a required key, a single-row dict, a list of row dicts, a list of
plain prices, or any unsupported value. -/
inductive MarketInput where
  | frame (bars : List Bar)
  | dictCols (close high low : List ℚ) (openCol volumeCol : Option (List ℚ))
  | dictMissing
  | dictScalar (row : Bar)
  | listRows (rows : List Bar)
  | listVals (vals : List ℚ)
  | unsupported
  deriving Repr, DecidableEq

/-- Length check for an optional extra column. -/
def optColOk (n : ℕ) : Option (List ℚ) → Bool
  | some c => c.length = n
  | none => true

/-- Embeds `TradingEngine._ensure_dataframe`: convert the supported shapes to a bar
series, `none` when the source returns `None` (including the exception path
taken when `pd.DataFrame` rejects ragged column lists). A dict without an
Open column gets `Close.shift(1).fillna(Close)`; a missing Volume column
defaults to 1000; a list of plain values uses each value for all four price
columns with volume 1000. -/
def ensureDataframe : MarketInput → Option (List Bar)
  | .frame bars => some bars
  | .dictCols close high low openCol volumeCol =>
    let n := close.length
    if high.length = n ∧ low.length = n ∧ optColOk n openCol ∧ optColOk n volumeCol then
      some ((List.range n).map (fun i =>
        { openP :=
            match openCol with
            | some o => o.getD i 0
            | none => if i = 0 then close.getD 0 0 else close.getD (i - 1) 0
          high := high.getD i 0
          low := low.getD i 0
          close := close.getD i 0
          volume :=
            match volumeCol with
            | some vc => vc.getD i 0
            | none => 1000 }))
    else none
  | .dictMissing => none
  | .dictScalar row => some [row]
  | .listRows rows => if rows.isEmpty then none else some rows
  | .listVals vals =>
    if vals.isEmpty then none
    else some (vals.map (fun x => ⟨x, x, x, x, 1000⟩))
  | .unsupported => none

/-- The HOLD signal returned for unusable market data. -/
def invalidDataSignal : TradeSignal :=
  { signal := .HOLD, confidence := 0, reasons := ["No valid market data"] }

/-- Embeds `TradingEngine.generate_trade_signal`: convert the input, reject unusable
or empty data, otherwise analyze and build the signal. -/
def generateTradeSignal (md : MarketInput) (acct : Account) : TradeSignal :=
  match ensureDataframe md with
  | none => invalidDataSignal
  | some bars =>
    if bars.isEmpty then invalidDataSignal
    else generateFromAnalysis (analyzeMarketSetup bars) acct

/-! ## Helper lemmas -/

/-- `round_to_step` of the specification. -/
def roundToStep (x step : ℚ) : ℚ := (rnearestEven (x / step) : ℚ) * step

theorem round2_lower (x : ℚ) (h : 1/100 ≤ x) : 1/100 ≤ round2 x := by
  unfold round2
  have h1 := rnearestEven_ge (x * 100)
  have h4 : (1 : ℤ) ≤ rnearestEven (x * 100) := by
    by_contra hc
    push_neg at hc
    have hz : rnearestEven (x * 100) ≤ 0 := by omega
    have hz' : ((rnearestEven (x * 100) : ℤ) : ℚ) ≤ 0 := by exact_mod_cast hz
    linarith
  have h5 : (1 : ℚ) ≤ (rnearestEven (x * 100) : ℚ) := by exact_mod_cast h4
  linarith

theorem round2_upper (x : ℚ) (h : x ≤ 1) : round2 x ≤ 1 := by
  unfold round2
  have h1 := rnearestEven_le (x * 100)
  have h4 : rnearestEven (x * 100) ≤ (100 : ℤ) := by
    by_contra hc
    push_neg at hc
    have hz : (101 : ℤ) ≤ rnearestEven (x * 100) := by omega
    have hz' : ((101 : ℤ) : ℚ) ≤ ((rnearestEven (x * 100) : ℤ) : ℚ) := by exact_mod_cast hz
    push_cast at hz'
    linarith
  have h5 : ((rnearestEven (x * 100) : ℤ) : ℚ) ≤ (100 : ℚ) := by exact_mod_cast h4
  linarith

/-- The risk manager position sizing always returns a lot size inside
`[0.01, 1.0]` when the stop distance and balance are nonzero. -/
theorem rmLotSizeBounds (st : RiskState) (balance entry sl : ℚ)
    (hd : |entry - sl| ≠ 0) (hb : balance ≠ 0) :
    1/100 ≤ (rmCalculatePositionSize st balance entry sl none).lot_size ∧
    (rmCalculatePositionSize st balance entry sl none).lot_size ≤ 1 := by
  unfold rmCalculatePositionSize
  dsimp only
  rw [if_neg hd, if_neg hb]
  dsimp only
  constructor
  · exact round2_lower _ (le_max_left _ _)
  · exact round2_upper _ (max_le (by norm_num) (min_le_left _ _))

/-! ## Concrete inputs used by the counterexamples and witnesses -/

/-- A flat bar at 100. -/
def flatBar : Bar := ⟨100, 100, 100, 100, 1⟩

/-- A quiet bar just below 100. -/
def midBar : Bar := ⟨99.9, 99.95, 99.85, 99.9, 1⟩

/-- A quiet bar around 100. -/
def calmBar : Bar := ⟨100, 100.05, 99.95, 100, 1⟩

/-- Twenty bars forming a clean bullish SMC setup (upward liquidity grab at
bar 5, wide bullish order-block candle at bar 13, break of structure at bar
19) whose volume-heavy final bar pins the cumulative VWAP barely above the
top of the order block, so the VWAP take-profit sits a fraction of the
stop distance away from the entry. -/
def demoBars : List Bar :=
  [flatBar, flatBar, flatBar, flatBar, flatBar,
   ⟨100, 100.5, 100, 100, 1⟩,
   ⟨99.9, 99.9, 99.8, 99.9, 1⟩,
   midBar, midBar, midBar, midBar, midBar, midBar,
   ⟨99, 101.5, 98.5, 101, 1⟩,
   calmBar, calmBar, calmBar, calmBar, calmBar,
   ⟨101.9, 102, 101.9, 102, 1000000⟩]

/-- A 100k account. -/
def demoAcct : Account := ⟨some 100000, some 100000⟩

/-- The scenario-3 BUY position: entry 2680.00, stop 2678.95, target 2682.10,
one lot. -/
def demoPositionBuy : LivePosition :=
  { ticket := 1000, direction := .BUY, volume := 1,
    entry_price := 2680, stop_loss := 2678.95, take_profit := 2682.10 }

/-- The technical BUY signal of the end-to-end scenarios, pre-AI confidence
0.8125. -/
def demoSignalBuy : TradeSignal :=
  { signal := .BUY, confidence := 0.8125,
    reasons := ["All 4 SMC strategy steps completed successfully"],
    entry_price := some 2680, stop_loss := some 2678.95,
    take_profit := some 2682.10, rrVal := some 2,
    lot_size := some 1, risk_amount := some 1000, setup_quality := some 9 }

/-- An AI reply confirming a BUY. -/
def demoAIBuy : AIDecision := { trade_decision := .BUY, confidence_score := 0.8 }

/-- An AI reply demanding HOLD (the veto scenario). -/
def demoAIHold : AIDecision := { trade_decision := .HOLD, confidence_score := 0.2 }

/-! ## Claim C2 -/

/-- C2, counterexample. With the scenario-3 BUY position (entry 2680.00,
stop 2678.95) and observed price 2678.90, the live engine does flag a
stop-loss close, but the exit price it records is the observed price 2678.90
— not the stop level 2678.95 the claim requires — and the recorded P&L is
−110 per lot rather than the claimed (stop_loss − entry)·ounces = −105. -/
theorem C2_counterexample :
    (updateOpenPosition demoPositionBuy 2678.90).2 = some (2678.90, .STOP_LOSS) ∧
    (2678.90 : ℚ) ≠ demoPositionBuy.stop_loss ∧
    closePositionPnl demoPositionBuy 2678.90 = -110 ∧
    closePositionPnl demoPositionBuy 2678.90 ≠
      (demoPositionBuy.stop_loss - demoPositionBuy.entry_price) *
        (demoPositionBuy.volume * 100) := by
  refine ⟨by decide, by decide, by decide, by decide⟩

/-- C2, amended. A stop-loss exit triggers when the currently observed last
price crosses the stop (BUY: price ≤ stop_loss; SELL: price ≥ stop_loss; the
source compares the live price, not the bar low/high), and the position is
closed at that observed price, so the recorded pnl is
side·(observed − entry)·volume·100. -/
theorem stopLossExitAtObservedPrice (pos : LivePosition) (price : ℚ) :
    (pos.direction = .BUY → price ≤ pos.stop_loss →
      (updateOpenPosition pos price).2 = some (price, .STOP_LOSS) ∧
      closePositionPnl pos price = (price - pos.entry_price) * pos.volume * 100) ∧
    (pos.direction = .SELL → price ≥ pos.stop_loss →
      (updateOpenPosition pos price).2 = some (price, .STOP_LOSS) ∧
      closePositionPnl pos price = (pos.entry_price - price) * pos.volume * 100) := by
  constructor
  · intro hd hp
    unfold updateOpenPosition closePositionPnl
    rw [hd]
    dsimp only
    rw [if_pos hp]
    exact ⟨rfl, rfl⟩
  · intro hd hp
    unfold updateOpenPosition closePositionPnl
    rw [hd]
    dsimp only
    rw [if_pos hp]
    exact ⟨rfl, rfl⟩

/-- Witness for `stopLossExitAtObservedPrice` at the scenario-3 inputs. -/
theorem stopLossExitAtObservedPrice_witness :
    demoPositionBuy.direction = .BUY ∧ (2678.90 : ℚ) ≤ demoPositionBuy.stop_loss ∧
    ((updateOpenPosition demoPositionBuy 2678.90).2 = some (2678.90, .STOP_LOSS) ∧
     closePositionPnl demoPositionBuy 2678.90 =
       ((2678.90 : ℚ) - demoPositionBuy.entry_price) * demoPositionBuy.volume * 100) :=
  ⟨by decide, by decide,
   (stopLossExitAtObservedPrice demoPositionBuy 2678.90).1 (by decide) (by decide)⟩

/-! ## Claim C3 -/

/-- C3. For a non-HOLD technical signal and any parsed AI reply: a non-HOLD
AI decision sets `ai_validated := true` and boosts confidence to
`min(1, c + 0.20)` without touching the direction; a HOLD decision sets
`ai_validated := false` and cuts confidence to `max(0, c − 0.30)`, demoting to
HOLD with appended reason "AI validation failed" exactly when the cut
confidence is below 0.30. -/
theorem aiValidationAdjustsConfidence (s : TradeSignal) (ai : AIDecision)
    (_hs : s.signal ≠ .HOLD) :
    (ai.trade_decision ≠ .HOLD →
      (applyAIValidation s ai).ai_validated = some true ∧
      (applyAIValidation s ai).confidence = min 1 (s.confidence + 2/10) ∧
      (applyAIValidation s ai).signal = s.signal) ∧
    (ai.trade_decision = .HOLD →
      (applyAIValidation s ai).ai_validated = some false ∧
      (applyAIValidation s ai).confidence = max 0 (s.confidence - 3/10) ∧
      (max 0 (s.confidence - 3/10) < 3/10 →
        (applyAIValidation s ai).signal = .HOLD ∧
        (applyAIValidation s ai).reasons = s.reasons ++ ["AI validation failed"]) ∧
      (¬ max 0 (s.confidence - 3/10) < 3/10 →
        (applyAIValidation s ai).signal = s.signal ∧
        (applyAIValidation s ai).reasons = s.reasons)) := by
  constructor
  · intro hne
    unfold applyAIValidation
    rw [if_pos hne]
    exact ⟨rfl, rfl, rfl⟩
  · intro heq
    unfold applyAIValidation
    rw [if_neg (by simp [heq])]
    dsimp only
    refine ⟨?_, ?_, ?_, ?_⟩
    · split_ifs <;> rfl
    · split_ifs <;> rfl
    · intro hlt
      rw [if_pos hlt]
      exact ⟨rfl, rfl⟩
    · intro hge
      rw [if_neg hge]
      exact ⟨rfl, rfl⟩

/-- Witness for `aiValidationAdjustsConfidence`: the scenario-1 signal with
the confirming AI reply gets `ai_validated = true` and confidence
`min(1, 0.8125 + 0.2) = 1`. -/
theorem aiValidationAdjustsConfidence_witness :
    demoSignalBuy.signal ≠ .HOLD ∧
    ((applyAIValidation demoSignalBuy demoAIBuy).ai_validated = some true ∧
     (applyAIValidation demoSignalBuy demoAIBuy).confidence =
       min 1 (demoSignalBuy.confidence + 2/10) ∧
     (applyAIValidation demoSignalBuy demoAIBuy).signal = demoSignalBuy.signal) :=
  ⟨by decide,
   (aiValidationAdjustsConfidence demoSignalBuy demoAIBuy (by decide)).1 (by decide)⟩

/-! ## Claim C4 -/

/-- C4, counterexample. In the AI-veto scenario the signal confidence
drops from 0.8125 to 0.5125 and the signal stays non-HOLD, yet it does NOT
proceed to the risk gate: `_analyze_and_trade` additionally requires
`confidence ≥ 0.75` before calling `validate_trade_risk`. -/
theorem C4_counterexample :
    (applyAIValidation demoSignalBuy demoAIHold).confidence = 0.5125 ∧
    (applyAIValidation demoSignalBuy demoAIHold).signal = .BUY ∧
    proceedsToRiskGate (applyAIValidation demoSignalBuy demoAIHold) = false := by
  refine ⟨by decide, by decide, by decide⟩

/-- C4, amended. The control plane applies a second minimum-confidence
threshold (0.75) between the AI validator and the risk gate; consequently an
AI-vetoed signal — whose confidence is cut to `max(0, c − 0.3) ≤ 0.7` for any
pre-AI confidence `c ≤ 1` — can never reach `validate_trade_risk`. -/
theorem aiVetoNeverReachesRiskGate (s : TradeSignal) (ai : AIDecision)
    (hc : s.confidence ≤ 1) (hd : ai.trade_decision = .HOLD) :
    proceedsToRiskGate (applyAIValidation s ai) = false := by
  unfold applyAIValidation
  rw [if_neg (by simp [hd])]
  dsimp only
  have hlt : max 0 (s.confidence - 3/10) < 3/4 :=
    max_lt (by norm_num) (by linarith)
  split_ifs with h
  · simp [proceedsToRiskGate]
  · simp only [proceedsToRiskGate]
    simp only [decide_eq_false_iff_not]
    intro hcontra
    exact absurd hcontra.2 (by push_neg; exact hlt)

/-- Witness for `aiVetoNeverReachesRiskGate` at the veto scenario. -/
theorem aiVetoNeverReachesRiskGate_witness :
    demoSignalBuy.confidence ≤ 1 ∧ demoAIHold.trade_decision = .HOLD ∧
    proceedsToRiskGate (applyAIValidation demoSignalBuy demoAIHold) = false :=
  ⟨by decide, by decide,
   aiVetoNeverReachesRiskGate demoSignalBuy demoAIHold (by decide) (by decide)⟩

/-! ## Claim C6 -/

/-- C6. For any positive stop distance and positive risk cap, the shared
gold position sizer computes `risk_amount = min(balance·(risk%/100),
max_risk_amount)`, rounds `risk_amount/stop_distance/contract_size` to the
0.01 lot step, clamps into `[0.01, 50]`, and recomputes the published
actuals from the rounded lot: `ounces = lot·100`,
`risk_amount = ounces·stop_distance`, `pip_value = lot·10`,
`position_value = ounces·entry` (and the pip distance `stop_distance·10`). -/
theorem goldSizingFormulas (balance pct entry sl m : ℚ)
    (hd : |entry - sl| ≠ 0) (hm : 0 < m) :
    goldCalculatePositionSize balance pct entry sl (some m) =
      (let riskAmount := min (balance * (pct / 100)) m
       let d := |entry - sl|
       let lot := max (1/100) (min (roundToStep (riskAmount / d / 100) (1/100)) 50)
       { lot_size := lot, ounces := lot * 100, risk_amount := lot * 100 * d,
         pip_value := lot * 10, stop_loss_distance := d * 10,
         position_value := lot * 100 * entry }) := by
  unfold goldCalculatePositionSize roundToStep
  dsimp only
  rw [if_neg hd]
  have hcap : (if m ≠ 0 ∧ balance * (pct / 100) > m then m else balance * (pct / 100)) =
      min (balance * (pct / 100)) m := by
    split_ifs with h
    · exact (min_eq_right (le_of_lt h.2)).symm
    · push_neg at h
      rcases lt_or_le m (balance * (pct / 100)) with hlt | hle
      · exact absurd (h (ne_of_gt hm)) (not_le.mpr hlt)
      · exact (min_eq_left hle).symm
  rw [hcap]

/-- Witness for `goldSizingFormulas`: a 100k account risking 1 % (capped at
2000) on a 10-dollar stop gets exactly 1.00 lot = 100 oz risking 1000. -/
theorem goldSizingFormulas_witness :
    |(2680 : ℚ) - 2670| ≠ 0 ∧ (0 : ℚ) < 2000 ∧
    goldCalculatePositionSize 100000 1 2680 2670 (some 2000) =
      (let riskAmount := min ((100000 : ℚ) * (1 / 100)) 2000
       let d := |(2680 : ℚ) - 2670|
       let lot := max (1/100) (min (roundToStep (riskAmount / d / 100) (1/100)) 50)
       { lot_size := lot, ounces := lot * 100, risk_amount := lot * 100 * d,
         pip_value := lot * 10, stop_loss_distance := d * 10,
         position_value := lot * 100 * 2680 }) :=
  ⟨by decide, by decide, goldSizingFormulas 100000 1 2680 2670 2000 (by decide) (by decide)⟩

/-! ## Claim C8 -/

/-- C8. The setup-quality score is base 5, plus 2 for a non-neutral trend,
plus 1 for any order block, plus 2 for a detected BOS, plus 1 for any
liquidity grab, plus 1 for RSI in [30, 70] and minus 1 for RSI below 20 or
above 80, clamped into [1, 10]. -/
theorem setupQualityDecomposition (a : MarketAnalysis) :
    calculateSetupQuality a =
      max 1 (min 10 ((5 : ℤ)
        + (if a.trend = .BULLISH ∨ a.trend = .BEARISH then 2 else 0)
        + (if 0 < a.order_blocks.length then 1 else 0)
        + (if a.bos_analysis.bos_detected then 2 else 0)
        + (if 0 < a.liquidity_grabs.length then 1 else 0)
        + (if 30 ≤ (a.indicators.map Indicators.rsi).getD 50 ∧
              (a.indicators.map Indicators.rsi).getD 50 ≤ 70 then 1
           else if (a.indicators.map Indicators.rsi).getD 50 < 20 ∨
              (a.indicators.map Indicators.rsi).getD 50 > 80 then -1 else 0))) := by
  unfold calculateSetupQuality
  dsimp only
  split_ifs <;> rfl

/-! ## Claim C10 -/

/-- C10. Risk validation is read-only on the risk state: it returns the
state exactly as given (in particular `daily_pnl`, `trade_count_today` and
every configured limit are unchanged), while `update_daily_pnl`,
`increment_trade_count` and `reset_daily_counters` are the only operations
that modify the counters, each touching exactly its own fields. -/
theorem riskCountersFrame (st : RiskState) (sig : SignalFields) (acct : Account) (p : ℚ) :
    (validateTradeRiskRun st sig acct).1 = st ∧
    (validateTradeRiskRun st sig acct).1.daily_pnl = st.daily_pnl ∧
    (validateTradeRiskRun st sig acct).1.trade_count_today = st.trade_count_today ∧
    (validateTradeRiskRun st sig acct).1.max_daily_loss = st.max_daily_loss ∧
    (validateTradeRiskRun st sig acct).1.max_risk_per_trade = st.max_risk_per_trade ∧
    (validateTradeRiskRun st sig acct).1.max_trades_per_day = st.max_trades_per_day ∧
    updateDailyPnlRun st p = { st with daily_pnl := st.daily_pnl + p } ∧
    incrementTradeCountRun st = { st with trade_count_today := st.trade_count_today + 1 } ∧
    resetDailyCountersRun st = { st with daily_pnl := 0, trade_count_today := 0 } :=
  ⟨rfl, rfl, rfl, rfl, rfl, rfl, rfl, rfl, rfl⟩

/-! ## Claim C5 -/

/-- Blocker 1: daily realized P&L at or below the loss limit. -/
abbrev rmCheck1 (st : RiskState) : Prop := st.daily_pnl ≤ -st.max_daily_loss

/-- Blocker 2: drawdown `(balance − equity)/balance` at or above 10 %. -/
abbrev rmCheck2 (st : RiskState) (acct : Account) : Prop :=
  (acctBalance acct - acctEquity acct) / acctBalance acct ≥ st.max_drawdown

/-- Blocker 3: daily trade count at or above the cap. -/
abbrev rmCheck3 (st : RiskState) : Prop :=
  st.trade_count_today ≥ st.max_trades_per_day

/-- Blocker 4 (missing components): entry, stop or target absent or zero. -/
abbrev rmCheck4 (sig : SignalFields) : Prop :=
  sigEntry sig = 0 ∨ sigStop sig = 0 ∨ sigTP sig = 0

/-- Blocker 4 (invalid stop): zero stop distance. -/
abbrev rmCheck4b (sig : SignalFields) : Prop :=
  |sigEntry sig - sigStop sig| = 0

/-- Blocker 5: risk-reward ratio below 1.5. -/
abbrev rmCheck5 (sig : SignalFields) : Prop :=
  |sigTP sig - sigEntry sig| / |sigEntry sig - sigStop sig| < 3/2

/-- Blocker 6 (zero lot): the computed position size degenerates. -/
abbrev rmCheck6a (st : RiskState) (sig : SignalFields) (acct : Account) : Prop :=
  (rmCalculatePositionSize st (acctBalance acct) (sigEntry sig) (sigStop sig) none).lot_size = 0

/-- Blocker 6 (risk amount): actual risk beyond `balance · max_risk_per_trade`. -/
abbrev rmCheck6b (st : RiskState) (sig : SignalFields) (acct : Account) : Prop :=
  (rmCalculatePositionSize st (acctBalance acct) (sigEntry sig) (sigStop sig) none).risk_amount
    > acctBalance acct * st.max_risk_per_trade

/-- C5. The hard blockers fire in the fixed source order — daily loss,
drawdown, trade count, missing components, invalid stop, low risk-reward,
zero lot, excessive risk — the first failing check alone producing the
rejection reason; a signal passing every check is approved with reason list
`[allCriteriaMet]` and a lot size inside `[0.01, 1.0]` (hence inside the
`[min_lot, max_lot]` contract bounds). -/
theorem riskValidationFirstFailingCheck (st : RiskState) (sig : SignalFields)
    (acct : Account) (hb : 0 < acctBalance acct) :
    (rmCheck1 st → validateTradeRisk st sig acct = riskReject .dailyLossLimit) ∧
    (¬ rmCheck1 st → rmCheck2 st acct →
      validateTradeRisk st sig acct = riskReject .maxDrawdownExceeded) ∧
    (¬ rmCheck1 st → ¬ rmCheck2 st acct → rmCheck3 st →
      validateTradeRisk st sig acct = riskReject .dailyTradeLimit) ∧
    (¬ rmCheck1 st → ¬ rmCheck2 st acct → ¬ rmCheck3 st → rmCheck4 sig →
      validateTradeRisk st sig acct = riskReject .missingComponents) ∧
    (¬ rmCheck1 st → ¬ rmCheck2 st acct → ¬ rmCheck3 st → ¬ rmCheck4 sig →
      rmCheck4b sig → validateTradeRisk st sig acct = riskReject .invalidStopLoss) ∧
    (¬ rmCheck1 st → ¬ rmCheck2 st acct → ¬ rmCheck3 st → ¬ rmCheck4 sig →
      ¬ rmCheck4b sig → rmCheck5 sig →
      validateTradeRisk st sig acct = riskReject .lowRiskReward) ∧
    (¬ rmCheck1 st → ¬ rmCheck2 st acct → ¬ rmCheck3 st → ¬ rmCheck4 sig →
      ¬ rmCheck4b sig → ¬ rmCheck5 sig → rmCheck6a st sig acct →
      validateTradeRisk st sig acct = riskReject .zeroLotSize) ∧
    (¬ rmCheck1 st → ¬ rmCheck2 st acct → ¬ rmCheck3 st → ¬ rmCheck4 sig →
      ¬ rmCheck4b sig → ¬ rmCheck5 sig → ¬ rmCheck6a st sig acct →
      rmCheck6b st sig acct →
      validateTradeRisk st sig acct = riskReject .riskTooHigh) ∧
    (¬ rmCheck1 st → ¬ rmCheck2 st acct → ¬ rmCheck3 st → ¬ rmCheck4 sig →
      ¬ rmCheck4b sig → ¬ rmCheck5 sig → ¬ rmCheck6a st sig acct →
      ¬ rmCheck6b st sig acct →
      (validateTradeRisk st sig acct).approved = true ∧
      (validateTradeRisk st sig acct).reasons = [RiskReason.allCriteriaMet] ∧
      1/100 ≤ (validateTradeRisk st sig acct).adjusted_lot_size ∧
      (validateTradeRisk st sig acct).adjusted_lot_size ≤ 1) := by
  have hbne : ¬ (acctBalance acct = 0) := ne_of_gt hb
  refine ⟨?_, ?_, ?_, ?_, ?_, ?_, ?_, ?_, ?_⟩
  · intro h1
    unfold validateTradeRisk
    dsimp only
    rw [if_pos h1]
  · intro h1 h2
    unfold validateTradeRisk
    dsimp only
    rw [if_neg h1, if_neg hbne, if_pos h2]
  · intro h1 h2 h3
    unfold validateTradeRisk
    dsimp only
    rw [if_neg h1, if_neg hbne, if_neg h2, if_pos h3]
  · intro h1 h2 h3 h4
    unfold validateTradeRisk
    dsimp only
    rw [if_neg h1, if_neg hbne, if_neg h2, if_neg h3, if_pos h4]
  · intro h1 h2 h3 h4 h4b
    unfold validateTradeRisk
    dsimp only
    rw [if_neg h1, if_neg hbne, if_neg h2, if_neg h3, if_neg h4, if_pos h4b]
  · intro h1 h2 h3 h4 h4b h5
    unfold validateTradeRisk
    dsimp only
    rw [if_neg h1, if_neg hbne, if_neg h2, if_neg h3, if_neg h4, if_neg h4b, if_pos h5]
  · intro h1 h2 h3 h4 h4b h5 h6a
    unfold validateTradeRisk
    dsimp only
    rw [if_neg h1, if_neg hbne, if_neg h2, if_neg h3, if_neg h4, if_neg h4b,
        if_neg h5, if_pos h6a]
  · intro h1 h2 h3 h4 h4b h5 h6a h6b
    unfold validateTradeRisk
    dsimp only
    rw [if_neg h1, if_neg hbne, if_neg h2, if_neg h3, if_neg h4, if_neg h4b,
        if_neg h5, if_neg h6a, if_pos h6b]
  · intro h1 h2 h3 h4 h4b h5 h6a h6b
    have hEq : validateTradeRisk st sig acct =
        { approved := true
          reasons := [RiskReason.allCriteriaMet]
          risk_score := rmCalculateRiskScore sig
            (rmCalculatePositionSize st (acctBalance acct) (sigEntry sig) (sigStop sig) none) acct
          adjusted_lot_size :=
            (rmCalculatePositionSize st (acctBalance acct) (sigEntry sig) (sigStop sig) none).lot_size } := by
      unfold validateTradeRisk
      dsimp only
      rw [if_neg h1, if_neg hbne, if_neg h2, if_neg h3, if_neg h4, if_neg h4b,
          if_neg h5, if_neg h6a, if_neg h6b]
    rw [hEq]
    have hlot := rmLotSizeBounds st (acctBalance acct) (sigEntry sig) (sigStop sig) h4b hbne
    exact ⟨rfl, rfl, hlot.1, hlot.2⟩

/-- Default risk state: fresh day, default limits. -/
def demoRiskState : RiskState := {}

/-- A signal passing every risk blocker: entry 1987.5, stop 1985, target
1992.5 (risk-reward 2.0). -/
def demoSigFields : SignalFields :=
  { entry_price := some 1987.5, stop_loss := some 1985,
    take_profit := some 1992.5, rrVal := some 2,
    setup_quality := some 8, confidence := some 0.85 }

/-- Witness for `riskValidationFirstFailingCheck`: the all-pass scenario is
approved with exactly the success reason and a 1.00 lot. -/
theorem riskValidationFirstFailingCheck_witness :
    0 < acctBalance demoAcct ∧
    ((validateTradeRisk demoRiskState demoSigFields demoAcct).approved = true ∧
     (validateTradeRisk demoRiskState demoSigFields demoAcct).reasons = [RiskReason.allCriteriaMet] ∧
     1/100 ≤ (validateTradeRisk demoRiskState demoSigFields demoAcct).adjusted_lot_size ∧
     (validateTradeRisk demoRiskState demoSigFields demoAcct).adjusted_lot_size ≤ 1) :=
  ⟨by decide,
   (riskValidationFirstFailingCheck demoRiskState demoSigFields demoAcct
      (by decide)).2.2.2.2.2.2.2.2
     (by decide) (by decide) (by decide) (by decide) (by decide) (by decide)
     (by decide) (by decide)⟩

/-! ## Claim C1 -/

/-- The signal the engine produces on `demoBars` with a 100k account. -/
def demoSignalOut : TradeSignal := generateTradeSignal (.frame demoBars) demoAcct

/-- C1, counterexample. On the `demoBars` series the engine emits a BUY
signal (entry 101.50, stop 98.45, VWAP take-profit 101.97) whose
risk-reward ratio is 0.15 — far below 1.5 — because `generate_trade_signal`
contains no risk-reward (or lot-size) rejection at all: the VWAP target can
sit arbitrarily close above the entry. -/
theorem C1_counterexample :
    demoSignalOut.signal = .BUY ∧
    demoSignalOut.rrVal = some (3/20) ∧
    |demoSignalOut.take_profit.getD 0 - demoSignalOut.entry_price.getD 0| /
      |demoSignalOut.entry_price.getD 0 - demoSignalOut.stop_loss.getD 0| < 3/2 := by
  refine ⟨by decide, by decide, by decide⟩

/-- C1, amended. The 1.5 risk-reward floor is enforced only downstream, by
the risk gate: any signal approved by `RiskManager.validate_trade_risk`
satisfies `|TP − entry| / |entry − SL| ≥ 1.5`. -/
theorem riskGateEnforcesMinRR (st : RiskState) (sig : SignalFields) (acct : Account)
    (happ : (validateTradeRisk st sig acct).approved = true) :
    3/2 ≤ |sigTP sig - sigEntry sig| / |sigEntry sig - sigStop sig| := by
  by_contra hrr
  push_neg at hrr
  unfold validateTradeRisk at happ
  dsimp only at happ
  split_ifs at happ <;> simp [riskReject] at happ

/-- Witness for `riskGateEnforcesMinRR`: the approved all-pass scenario has
risk-reward 2.0 ≥ 1.5. -/
theorem riskGateEnforcesMinRR_witness :
    (validateTradeRisk demoRiskState demoSigFields demoAcct).approved = true ∧
    3/2 ≤ |sigTP demoSigFields - sigEntry demoSigFields| /
      |sigEntry demoSigFields - sigStop demoSigFields| :=
  ⟨by decide, riskGateEnforcesMinRR demoRiskState demoSigFields demoAcct (by decide)⟩

/-! ## Claim C7 -/

/-- A degenerate fresh bullish order block whose top lies exactly 5 pips
below its bottom, so the computed BUY entry equals the stop level. -/
def demoOrderBlockDegenerate : OrderBlock :=
  { kind := .bullish, top := 100, bottom := 100.05, timestamp := 13,
    strength := 5, status := .fresh }

/-- A recorded upward liquidity grab. -/
def demoGrab : LiquidityGrab :=
  { kind := .upward, price := 100.5, timestamp := 5, strength := 6 }

/-- Session levels around 100. -/
def demoLevels : SessionLevels :=
  { session_high := 102, session_low := 98, previous_day_high := 102,
    previous_day_low := 98, weekly_high := 102, weekly_low := 98 }

/-- An analysis that passes all four SMC gates but yields entry = stop. -/
def demoAnalysisDegenerate : MarketAnalysis :=
  { current_price := 100, trend := .NEUTRAL,
    session_levels := some demoLevels,
    order_blocks := [demoOrderBlockDegenerate],
    bos_analysis := { bos_detected := true, direction := .BULLISH, strength := 7,
                      break_price := 102 },
    liquidity_grabs := [demoGrab],
    indicators := some { vwap := 50, ema21 := 100, ema50 := 100, ema200 := 100,
                         rsi := 50, atr := 1 },
    setup_quality := 9 }

/-- C7, counterexample. With entry = stop_loss the engine does NOT demote the
signal to HOLD and raises no `InvalidStop`: it still emits the directional
BUY signal — merely with `lot_size = 0` (the zero-distance
dictionary) and `risk_reward_ratio = 0`. -/
theorem C7_counterexample :
    (engineBuyLevels demoAnalysisDegenerate
        (validateSMCStrategySetup demoAnalysisDegenerate)).1 =
      (engineBuyLevels demoAnalysisDegenerate
        (validateSMCStrategySetup demoAnalysisDegenerate)).2.1 ∧
    (generateFromAnalysis demoAnalysisDegenerate demoAcct).signal = .BUY ∧
    (generateFromAnalysis demoAnalysisDegenerate demoAcct).signal ≠ .HOLD ∧
    (generateFromAnalysis demoAnalysisDegenerate demoAcct).lot_size = some 0 := by
  refine ⟨by decide, by decide, by decide, by decide⟩

/-- The engine sizing helper degenerates to an all-zero dictionary when the
stop distance is zero. -/
theorem engineSizingZeroDistance (balance pct e : ℚ) :
    engineCalculatePositionSize balance pct e e = ⟨0, 0, 0, 0⟩ := by
  unfold engineCalculatePositionSize
  dsimp only
  rw [if_pos (by rw [sub_self, abs_zero, zero_mul])]

/-- C7, amended. When the computed entry equals the computed stop-loss,
`TradingEngine.calculate_position_size` returns a zero lot (no `InvalidStop`
error exists in the source), and `generate_trade_signal` still emits the
directional signal — but always with `lot_size = 0` and
`risk_reward_ratio = 0`, so no non-HOLD signal with a positive lot size is
ever produced from a zero stop distance. -/
theorem zeroStopDistanceGivesZeroLot (a : MarketAnalysis) (acct : Account)
    (balance pct e : ℚ) :
    (engineCalculatePositionSize balance pct e e).lot_size = 0 ∧
    ((validateSMCStrategySetup a).valid = true →
     (validateSMCStrategySetup a).trade_direction = .BUY →
     (engineBuyLevels a (validateSMCStrategySetup a)).1 =
       (engineBuyLevels a (validateSMCStrategySetup a)).2.1 →
     (generateFromAnalysis a acct).lot_size = some 0 ∧
     (generateFromAnalysis a acct).rrVal = some 0) := by
  constructor
  · rw [engineSizingZeroDistance]
  · intro hv hd heq
    unfold generateFromAnalysis
    rw [if_neg (not_not_intro hv), if_pos hd]
    dsimp only
    rw [heq, engineSizingZeroDistance]
    have hz : |(engineBuyLevels a (validateSMCStrategySetup a)).2.1 -
        (engineBuyLevels a (validateSMCStrategySetup a)).2.1| = 0 := by
      rw [sub_self, abs_zero]
    rw [if_neg (by rw [hz]; exact lt_irrefl 0)]
    exact ⟨rfl, by decide⟩

/-- Witness for `zeroStopDistanceGivesZeroLot` at the degenerate analysis. -/
theorem zeroStopDistanceGivesZeroLot_witness :
    (engineCalculatePositionSize 100000 (1/100) 100 100).lot_size = 0 ∧
    ((generateFromAnalysis demoAnalysisDegenerate demoAcct).lot_size = some 0 ∧
     (generateFromAnalysis demoAnalysisDegenerate demoAcct).rrVal = some 0) :=
  ⟨(zeroStopDistanceGivesZeroLot demoAnalysisDegenerate demoAcct 100000 (1/100) 100).1,
   (zeroStopDistanceGivesZeroLot demoAnalysisDegenerate demoAcct 100000 (1/100) 100).2
     (by decide) (by decide) (by decide)⟩

/-! ## Claim C9 -/

/-- C9. `generate_trade_signal` is total: on every supported or unsupported
input shape it returns a signal whose direction is BUY, SELL or HOLD, and
whenever the input cannot be converted to a non-empty DataFrame the result
is the HOLD signal with confidence 0 and the "No valid market data" reason
(all internal failure paths, including the `UnboundLocalError` of the SELL
branch, are likewise caught and mapped to HOLD dictionaries). -/
theorem generateTradeSignalTotal (md : MarketInput) (acct : Account) :
    (generateTradeSignal md acct).signal ∈ [Direction.BUY, Direction.SELL, Direction.HOLD] ∧
    ((ensureDataframe md).getD [] = [] →
      (generateTradeSignal md acct).signal = .HOLD ∧
      (generateTradeSignal md acct).confidence = 0 ∧
      (generateTradeSignal md acct).reasons = ["No valid market data"]) ∧
    (∀ a : MarketAnalysis,
      ((validateSMCStrategySetup a).valid = false →
        (generateFromAnalysis a acct).signal = .HOLD ∧
        (generateFromAnalysis a acct).confidence = 0) ∧
      ((validateSMCStrategySetup a).valid = true →
        (validateSMCStrategySetup a).trade_direction ≠ .BUY →
        (generateFromAnalysis a acct).signal = .HOLD ∧
        (generateFromAnalysis a acct).confidence = 0 ∧
        (generateFromAnalysis a acct).reasons ≠ [])) := by
  refine ⟨?_, ?_, ?_⟩
  · cases (generateTradeSignal md acct).signal <;> decide
  · intro hemp
    unfold generateTradeSignal
    cases hdf : ensureDataframe md with
    | none => exact ⟨rfl, rfl, rfl⟩
    | some bars =>
      rw [hdf] at hemp
      simp only [Option.getD_some] at hemp
      subst hemp
      exact ⟨rfl, rfl, rfl⟩
  · intro a
    constructor
    · intro hv
      unfold generateFromAnalysis
      rw [if_pos (by simp [hv])]
      exact ⟨rfl, rfl⟩
    · intro hv hd
      unfold generateFromAnalysis
      rw [if_neg (not_not_intro hv), if_neg hd]
      exact ⟨rfl, rfl, by simp⟩

/-- Witness for `generateTradeSignalTotal` on an unsupported input type. -/
theorem generateTradeSignalTotal_witness :
    (ensureDataframe MarketInput.unsupported).getD [] = [] ∧
    ((generateTradeSignal MarketInput.unsupported demoAcct).signal = .HOLD ∧
     (generateTradeSignal MarketInput.unsupported demoAcct).confidence = 0 ∧
     (generateTradeSignal MarketInput.unsupported demoAcct).reasons = ["No valid market data"]) :=
  ⟨by decide, (generateTradeSignalTotal MarketInput.unsupported demoAcct).2.1 (by decide)⟩
